import Mathlib

/-!
Shallow embedding of the mcpdoc documentation server core
(src/mcpdoc/main.py): the allowlist/dispatch logic of fetch_docs,
the source listing of list_doc_sources, and the allowed-domain
derivation performed by create_server.

External collaborators (the httpx HTTP client, the markdownify
converter, the filesystem primitives and urllib.parse.urlparse) are
abstracted as an environment of functions; Python exceptions become an
explicit Except value, distinguishing the httpx exception classes that
the remote branch of fetch_docs catches from every other exception
class. Python string primitives (startswith, slicing, replace) are
given their Python semantics over the character list of the string, so
that every definition evaluates inside the kernel.
-/

/-- Python str.startswith: the characters of p are a prefix of the
characters of s. -/
def py_startswith (s p : String) : Bool :=
  p.data.isPrefixOf s.data

/-- Python slicing s[n:]: drop the first n characters. -/
def py_drop (s : String) (n : Nat) : String :=
  String.mk (s.data.drop n)

/-- Worker for Python str.replace over character lists, with enough
fuel to scan the whole input; every occurrence of a non-empty pat is
replaced by repl, scanning left to right. -/
def replaceAllFuel (pat repl : List Char) : Nat → List Char → List Char
  | _, [] => []
  | 0, l => l
  | fuel + 1, c :: rest =>
    if pat.isPrefixOf (c :: rest) ∧ pat ≠ [] then
      repl ++ replaceAllFuel pat repl fuel (rest.drop (pat.length - 1))
    else
      c :: replaceAllFuel pat repl fuel rest

/-- Python str.replace: every occurrence of pat in s is replaced by
repl. -/
def py_replace (s pat repl : String) : String :=
  String.mk (replaceAllFuel pat.data repl.data s.data.length s.data)

deriving instance DecidableEq for Except

/-- A Python exception value, as far as the code semantics depends on
its class: httpx.HTTPStatusError and httpx.RequestError are the two
classes named in the except clause of the remote branch of fetch_docs;
every other exception class (OSError, UnicodeDecodeError,
RecursionError, TypeError, ...) is collapsed into other. Each carries
the text that str(e) yields. -/
inductive PyExc where
  | httpStatusError (m : String)
  | requestError (m : String)
  | other (m : String)
deriving DecidableEq, Repr

/-- The text returned by str(e) on the exception. -/
def PyExc.msg : PyExc → String
  | .httpStatusError m => m
  | .requestError m => m
  | .other m => m

/-- Whether the exception is caught by the clause
except (httpx.HTTPStatusError, httpx.RequestError) in fetch_docs. -/
def PyExc.caughtByHttpx : PyExc → Bool
  | .httpStatusError _ => true
  | .requestError _ => true
  | .other _ => false

/-- An httpx response, as far as the code inspects it: its status code
and its decoded body text. -/
structure HttpResponse where
  status : Nat
  text : String
deriving DecidableEq, Repr

/-- The environment of external collaborators used by the code:
os.path.exists, open plus read (returning the file content or the
exception raised), the httpx GET (returning a response or the
exception raised), the markdownify converter (which, being an
arbitrary Python callable, may itself raise), and
urllib.parse.urlparse restricted to the (scheme, netloc) pair that
extract_domain reads from its result. -/
structure Env where
  fsExists : String → Bool
  fsRead : String → Except PyExc String
  httpGet : String → Except PyExc HttpResponse
  markdownify : String → Except PyExc String
  urlparse : String → String × String

/-- os.path.basename for POSIX paths: the substring after the last
slash (the whole string when it has no slash). -/
def basename (p : String) : String :=
  String.mk ((p.data.reverse.takeWhile (fun c => c ≠ '/')).reverse)

/-- A documentation source record (TypedDict DocSource): required
locator llms_txt, optional name and description. -/
structure DocSource where
  name : Option String
  llms_txt : String
  description : Option String
deriving DecidableEq, Repr

/-- extract_domain from main.py: parse the url and return
scheme://netloc/ with a trailing slash. -/
def extract_domain (env : Env) (url : String) : String :=
  let parsed := env.urlparse url
  parsed.1 ++ "://" ++ parsed.2 ++ "/"

/-- Python string truthiness used by the pattern
entry.get("name", "") or fallback: the left side when non-empty, the
fallback otherwise. -/
def pyOr (a b : String) : String :=
  if a = "" then b else a

/-- entry.get("name", ""): the configured name, or the empty string
when the key is absent. -/
def getName (e : DocSource) : String :=
  e.name.getD ""

/-- The body of the loop of list_doc_sources for one entry: one
display-name line, then one Path:/URL: line, then a blank line. -/
def render_entry (env : Env) (entry : DocSource) : String :=
  let url_or_path := entry.llms_txt
  let is_local := py_startswith url_or_path "file://" || env.fsExists url_or_path
  if is_local then
    pyOr (getName entry) (basename (py_replace url_or_path "file://" "")) ++ "\n"
      ++ "Path: " ++ url_or_path ++ "\n\n"
  else
    pyOr (getName entry) (extract_domain env url_or_path) ++ "\n"
      ++ "URL: " ++ url_or_path ++ "\n\n"

/-- list_doc_sources from main.py: fold over the configured sources,
appending the rendered block of each entry to the accumulated text. -/
def list_doc_sources (env : Env) (doc_source : List DocSource) : String :=
  doc_source.foldl (fun content entry => content ++ render_entry env entry) ""

/-- The try body of the local-read branches of fetch_docs:
open(path).read() then markdownify(content); the first exception
raised escapes the body. -/
def local_read_try (env : Env) (path : String) : Except PyExc String :=
  match env.fsRead path with
  | .error e => .error e
  | .ok content => env.markdownify content

/-- A local-read branch of fetch_docs: the try body guarded by
except Exception, which turns every exception into the
Error reading local file string. -/
def local_read (env : Env) (path : String) : String :=
  match local_read_try env path with
  | .ok md => md
  | .error e => "Error reading local file: " ++ e.msg

/-- response.raise_for_status(): raises httpx.HTTPStatusError unless
the status code is a 2xx success. -/
def raise_for_status (resp : HttpResponse) : Except PyExc Unit :=
  if 200 ≤ resp.status ∧ resp.status < 300 then .ok ()
  else .error (.httpStatusError ("HTTP status error for status code " ++ toString resp.status))

/-- The try body of the remote branch of fetch_docs:
await httpx_client.get(url); response.raise_for_status();
markdownify(response.text). -/
def fetch_try_http (env : Env) (url : String) : Except PyExc String :=
  match env.httpGet url with
  | .error e => .error e
  | .ok response =>
    match raise_for_status response with
    | .error e => .error e
    | .ok _ => env.markdownify response.text

/-- The except clause of the remote branch: only httpx.HTTPStatusError
and httpx.RequestError are converted to the error string; any other
exception keeps propagating. -/
def handle_httpx (r : Except PyExc String) : Except PyExc String :=
  match r with
  | .ok s => .ok s
  | .error e =>
      if e.caughtByHttpx then .ok ("Encountered an HTTP error: " ++ e.msg)
      else .error e

/-- fetch_docs from main.py. domains is the captured set of allowed
origins, given in its iteration order. A .ok result is the string the
coroutine returns; a .error result is an exception propagating out of
it to the caller. -/
def fetch_docs (env : Env) (domains : List String) (url : String) : Except PyExc String :=
  if py_startswith url "file://" then
    .ok (local_read env (py_drop url 7))
  else if env.fsExists url then
    .ok (local_read env url)
  else if !(domains.contains "*") && !(domains.any (fun domain => py_startswith url domain)) then
    .ok ("Error: URL not allowed. Must start with one of the following domains: "
      ++ String.intercalate ", " domains)
  else
    handle_httpx (fetch_try_http env url)

/-- The body of the first loop of create_server for one entry: a local
entry only records has_local_files, a remote entry adds its extracted
domain to the set. -/
def scan_step (env : Env) (acc : Finset String × Bool) (entry : DocSource) : Finset String × Bool :=
  let url := entry.llms_txt
  if py_startswith url "file://" || env.fsExists url then (acc.1, true)
  else (insert (extract_domain env url) acc.1, acc.2)

/-- The first loop of create_server: scan the sources, collecting the
extracted domain of every non-local entry into the set and recording
whether any entry is local. -/
def scan_sources (env : Env) (doc_source : List DocSource) : Finset String × Bool :=
  doc_source.foldl (scan_step env) (∅, false)

/-- Python truthiness of the allowed_domains argument: a present,
non-empty list. -/
def truthyList (l : Option (List String)) : Bool :=
  match l with
  | none => false
  | some xs => !xs.isEmpty

/-- The allowed-domain derivation of create_server: scan the sources,
then, if allowed_domains is truthy, either collapse to the all-domains
marker when it contains the literal star or add its elements; else, if
some source was local and no domain was collected, collapse to the
marker. -/
def compute_domains (env : Env) (doc_source : List DocSource)
    (allowed_domains : Option (List String)) : Finset String :=
  let s := scan_sources env doc_source
  if truthyList allowed_domains then
    let l := allowed_domains.getD []
    if l.contains "*" then {"*"}
    else s.1 ∪ l.toFinset
  else if s.2 = true ∧ s.1 = ∅ then {"*"}
  else s.1

/-- The configuration a created server captures for its tools: the
redirect flag and timeout handed to the httpx client and the derived
allowed-domain set. The FastMCP host itself is an external
collaborator and carries no further logic of this core. -/
structure Server where
  follow_redirects : Bool
  timeout : ℚ
  domains : Finset String
deriving DecidableEq

/-- create_server from main.py. Its first act is the FastMCP call that
unpacks settings with a double star: unpacking None (the default)
raises a TypeError before anything else happens; with a mapping the
construction proceeds and the domain set is derived. -/
def create_server (env : Env) (doc_source : List DocSource)
    (follow_redirects : Bool) (timeout : ℚ)
    (settings : Option (List (String × String)))
    (allowed_domains : Option (List String)) : Except PyExc Server :=
  match settings with
  | none => .error (.other "TypeError: argument after ** must be a mapping, not NoneType")
  | some _ =>
      .ok { follow_redirects := follow_redirects
            timeout := timeout
            domains := compute_domains env doc_source allowed_domains }

/-! Specification-side formulations, written from the wording of the
specification rather than from the code, to be compared with the
translated definitions above. -/

/-- Spec wording: a locator is local when it carries the file scheme
prefix or a filesystem probe at the literal string succeeds. -/
def is_local_locator (env : Env) (u : String) : Bool :=
  py_startswith u "file://" || env.fsExists u

/-- Spec wording: the origins of all remote (non-local) configured
sources, as a set. -/
def remote_origins (env : Env) (ds : List DocSource) : Finset String :=
  ((ds.filter (fun e => !is_local_locator env e.llms_txt)).map
    (fun e => extract_domain env e.llms_txt)).toFinset

/-- Spec wording: at least one configured source is a local file. -/
def has_local_source (env : Env) (ds : List DocSource) : Bool :=
  ds.any (fun e => is_local_locator env e.llms_txt)

/-- Spec wording of the allowed-domain derivation: the origin of every
remote source plus the configured extra domains, where a configured
literal star collapses the set to the allow-all sentinel, and where a
local source together with no collected remote origin and no
configured extra domain also collapses it to the sentinel. -/
def spec_allowed_domains (env : Env) (ds : List DocSource)
    (allowed_domains : Option (List String)) : Finset String :=
  let extras := allowed_domains.getD []
  if extras.contains "*" then {"*"}
  else if has_local_source env ds = true ∧ remote_origins env ds = ∅ ∧ extras = [] then {"*"}
  else remote_origins env ds ∪ extras.toFinset

/-- Spec wording: the resolved display name of a source entry — the
configured (non-empty) name when given, else the file base name for a
local locator, else the origin for a remote locator. -/
def display_name (env : Env) (entry : DocSource) : String :=
  if is_local_locator env entry.llms_txt then
    pyOr (getName entry) (basename (py_replace entry.llms_txt "file://" ""))
  else
    pyOr (getName entry) (extract_domain env entry.llms_txt)

/-- Spec wording: the single locator line of a source entry — a Path:
line for a local locator, a URL: line otherwise. -/
def locator_line (env : Env) (entry : DocSource) : String :=
  if is_local_locator env entry.llms_txt then "Path: " ++ entry.llms_txt
  else "URL: " ++ entry.llms_txt

/-- Spec wording: the block a source contributes to the listing —
exactly one display-name line, then exactly one locator line, then a
blank line. -/
def source_block (env : Env) (entry : DocSource) : String :=
  display_name env entry ++ "\n" ++ locator_line env entry ++ "\n\n"

/-- Spec wording: the listing is the concatenation of the per-source
blocks in configured order. -/
def concat_blocks (env : Env) : List DocSource → String
  | [] => ""
  | e :: rest => source_block env e ++ concat_blocks env rest

/-! Concrete environments used to instantiate the theorems. -/

/-- An environment with no local files, a remote server answering 200
with body content, and a converter that succeeds on every input. -/
def envSample : Env :=
  { fsExists := fun _ => false
    fsRead := fun _ => .error (.other "No such file or directory")
    httpGet := fun _ => .ok { status := 200, text := "content" }
    markdownify := fun s => .ok s
    urlparse := fun _ => ("https", "docs.example.com") }

/-- An environment with one readable local file at /docs/llms.txt and
an unreachable network. -/
def envLocal : Env :=
  { fsExists := fun p => p == "/docs/llms.txt"
    fsRead := fun p =>
      if p == "/docs/llms.txt" then .ok "# Docs"
      else .error (.other "No such file or directory")
    httpGet := fun _ => .error (.requestError "ConnectError: all connection attempts failed")
    markdownify := fun s => .ok s
    urlparse := fun _ => ("https", "docs.example.com") }

/-- An environment whose remote server answers 200 but whose converter
raises a RecursionError (an exception class that is neither
httpx.HTTPStatusError nor httpx.RequestError) on the body. -/
def envBoom : Env :=
  { fsExists := fun _ => false
    fsRead := fun _ => .error (.other "No such file or directory")
    httpGet := fun _ => .ok { status := 200, text := "deeply nested markup" }
    markdownify := fun _ => .error (.other "RecursionError: maximum recursion depth exceeded")
    urlparse := fun _ => ("https", "example.com") }

/-! Helper lemmas shared by the claim theorems. -/

/-- The loop body of list_doc_sources renders exactly the per-source
block described by the specification. -/
theorem render_entry_eq_source_block (env : Env) (entry : DocSource) :
    render_entry env entry = source_block env entry := by
  unfold render_entry source_block display_name locator_line is_local_locator
  by_cases h : (py_startswith entry.llms_txt "file://" || env.fsExists entry.llms_txt) = true
  · simp [h, String.append_assoc]
    have hlit : ("\nPath: " : String) = "\n" ++ "Path: " := by decide
    rw [hlit, String.append_assoc]
  · simp [h, String.append_assoc]
    have hlit : ("\nURL: " : String) = "\n" ++ "URL: " := by decide
    rw [hlit, String.append_assoc]

/-- Folding the listing loop from any accumulated prefix appends the
concatenation of the remaining blocks. -/
theorem list_doc_sources_foldl_aux (env : Env) (ds : List DocSource) (acc : String) :
    ds.foldl (fun content entry => content ++ render_entry env entry) acc
      = acc ++ concat_blocks env ds := by
  induction ds generalizing acc with
  | nil => simp [concat_blocks, String.append_empty]
  | cons e rest ih =>
    rw [List.foldl_cons, ih, concat_blocks, render_entry_eq_source_block,
      String.append_assoc]

/-- The loop body of the scan, written with the named locality test. -/
theorem scan_step_eq (env : Env) (acc : Finset String × Bool) (e : DocSource) :
    scan_step env acc e
      = if is_local_locator env e.llms_txt then (acc.1, true)
        else (insert (extract_domain env e.llms_txt) acc.1, acc.2) := rfl

/-- Remote origins of a cons: a local head is skipped, a remote head
contributes its extracted domain. -/
theorem remote_origins_cons (env : Env) (e : DocSource) (rest : List DocSource) :
    remote_origins env (e :: rest)
      = if is_local_locator env e.llms_txt then remote_origins env rest
        else insert (extract_domain env e.llms_txt) (remote_origins env rest) := by
  unfold remote_origins
  rw [List.filter_cons]
  by_cases h : is_local_locator env e.llms_txt = true
  · simp [h]
  · rw [Bool.not_eq_true] at h
    simp [h]

/-- The local-file flag of a cons. -/
theorem has_local_source_cons (env : Env) (e : DocSource) (rest : List DocSource) :
    has_local_source env (e :: rest)
      = (is_local_locator env e.llms_txt || has_local_source env rest) := by
  simp [has_local_source]

/-- Folding the domain-collection loop from any accumulator yields the
union with the remote origins and the disjunction with the local-file
flag. -/
theorem scan_step_foldl (env : Env) (ds : List DocSource) (acc : Finset String × Bool) :
    ds.foldl (scan_step env) acc
      = (acc.1 ∪ remote_origins env ds, acc.2 || has_local_source env ds) := by
  induction ds generalizing acc with
  | nil => simp [remote_origins, has_local_source]
  | cons e rest ih =>
    rw [List.foldl_cons, scan_step_eq, remote_origins_cons, has_local_source_cons]
    by_cases h : is_local_locator env e.llms_txt = true
    · simp only [h, if_true, Bool.true_or]
      rw [ih]
      simp
    · rw [Bool.not_eq_true] at h
      simp only [h, if_false, Bool.false_or]
      rw [ih]
      simp [Finset.union_insert, Finset.insert_union]

/-- The scan of create_server computes exactly the remote origins and
the local-file flag. -/
theorem scan_sources_eq (env : Env) (ds : List DocSource) :
    scan_sources env ds = (remote_origins env ds, has_local_source env ds) := by
  rw [scan_sources, scan_step_foldl]
  simp

/-- The allowed-domain derivation of create_server agrees with the
spec-side formulation on every input. -/
theorem compute_domains_eq_spec (env : Env) (ds : List DocSource)
    (ad : Option (List String)) :
    compute_domains env ds ad = spec_allowed_domains env ds ad := by
  unfold compute_domains spec_allowed_domains truthyList
  rw [scan_sources_eq]
  match ad with
  | none =>
      simp only [Option.getD]
      by_cases h : has_local_source env ds = true ∧ remote_origins env ds = ∅
      · simp [h, List.contains]
      · simp [h, List.contains, Finset.union_empty]
  | some l =>
      by_cases hl : l.isEmpty = true
      · have hleq : l = [] := List.isEmpty_iff.mp hl
        subst hleq
        simp only [Option.getD]
        by_cases h : has_local_source env ds = true ∧ remote_origins env ds = ∅
        · simp [h, List.contains]
        · simp [h, List.contains, Finset.union_empty]
      · have hne : l ≠ [] := fun he => by simp [he] at hl
        simp only [Option.getD]
        by_cases hm : ("*" : String) ∈ l
        · simp [hl, hm]
        · simp [hl, hm, hne]

/-! Claim theorems. -/

/-- Claim C2: at initialization, create_server derives the
allowed-domain set as the origin of every remote source plus the
configured extra domains, where a configured literal star collapses
the set to the allow-all sentinel, and where at least one local source
together with no collected remote origin and no configured extra
domain also collapses it to the sentinel. -/
theorem create_server_derives_spec_domains (env : Env) (ds : List DocSource)
    (fr : Bool) (t : ℚ) (s : List (String × String)) (ad : Option (List String)) :
    (create_server env ds fr t (some s) ad).map Server.domains
      = .ok (spec_allowed_domains env ds ad) := by
  simp [create_server, Except.map, compute_domains_eq_spec]

/-- Claim C10: calling create_server with settings omitted or None
raises at startup, the None value being unpacked with a double star
into the server constructor; it succeeds whenever settings is a
mapping. -/
theorem create_server_settings_none_raises :
    (∀ (env : Env) (ds : List DocSource) (fr : Bool) (t : ℚ) (ad : Option (List String)),
      create_server env ds fr t none ad
        = .error (.other "TypeError: argument after ** must be a mapping, not NoneType"))
    ∧ ∀ (env : Env) (ds : List DocSource) (fr : Bool) (t : ℚ)
        (s : List (String × String)) (ad : Option (List String)),
      (create_server env ds fr t (some s) ad).isOk = true := by
  constructor
  · intro env ds fr t ad
    rfl
  · intro env ds fr t s ad
    rfl

/-- Claim C4: a url with the file:// prefix is routed to local read of
the stripped path; a read failure yields the local-read error string
embedding the underlying reason; the branch is terminal, its result
independent of the filesystem probe, the allowlist, and the HTTP
client, whether or not the stripped path exists. -/
theorem fetch_docs_file_scheme (env : Env) (domains : List String) (url : String)
    (h : py_startswith url "file://" = true) :
    fetch_docs env domains url = .ok (local_read env (py_drop url 7))
    ∧ (∀ e, env.fsRead (py_drop url 7) = .error e →
        fetch_docs env domains url = .ok ("Error reading local file: " ++ e.msg))
    ∧ ∀ (ex : String → Bool) (g : String → Except PyExc HttpResponse) (ds2 : List String),
        fetch_docs { env with fsExists := ex, httpGet := g } ds2 url
          = fetch_docs env domains url := by
  refine ⟨?_, ?_, ?_⟩
  · simp [fetch_docs, h]
  · intro e he
    simp [fetch_docs, h, local_read, local_read_try, he]
  · intro ex g ds2
    simp [fetch_docs, h, local_read, local_read_try]

/-- Witness for claim C4 at a concrete input: a file:// locator whose
stripped path does not exist surfaces the read error. -/
theorem fetch_docs_file_scheme_witness :
    fetch_docs envSample ["https://docs.example.com/"] "file:///a/b"
      = .ok ("Error reading local file: " ++ (PyExc.other "No such file or directory").msg) :=
  (fetch_docs_file_scheme envSample ["https://docs.example.com/"] "file:///a/b"
    (by decide)).2.1 (.other "No such file or directory") (by decide)

/-- Claim C5: a url without the file scheme whose filesystem probe
succeeds is read and converted locally, with no allowlist check and no
HTTP request. -/
theorem fetch_docs_existing_path (env : Env) (domains : List String) (url : String)
    (h1 : py_startswith url "file://" = false) (h2 : env.fsExists url = true) :
    fetch_docs env domains url = .ok (local_read env url)
    ∧ ∀ (g : String → Except PyExc HttpResponse) (ds2 : List String),
        fetch_docs { env with httpGet := g } ds2 url = fetch_docs env domains url := by
  constructor
  · simp [fetch_docs, h1, h2]
  · intro g ds2
    simp [fetch_docs, h1, h2, local_read, local_read_try]

/-- Witness for claim C5 at a concrete input: a bare existing path is
read locally. -/
theorem fetch_docs_existing_path_witness :
    fetch_docs envLocal [] "/docs/llms.txt" = .ok (local_read envLocal "/docs/llms.txt") :=
  (fetch_docs_existing_path envLocal [] "/docs/llms.txt" (by decide) (by decide)).1

/-- Claim C6: with the allow-all sentinel a member of the set, a
non-local url skips the allowlist rejection and proceeds to the HTTP
GET step. -/
theorem fetch_docs_allow_all (env : Env) (domains : List String) (url : String)
    (h1 : py_startswith url "file://" = false) (h2 : env.fsExists url = false)
    (h3 : domains.contains "*" = true) :
    fetch_docs env domains url = handle_httpx (fetch_try_http env url) := by
  have hm : "*" ∈ domains := by simpa using h3
  simp [fetch_docs, h1, h2, hm]

/-- Witness for claim C6 at a concrete input. -/
theorem fetch_docs_allow_all_witness :
    fetch_docs envSample ["*"] "https://anything.example/x"
      = handle_httpx (fetch_try_http envSample "https://anything.example/x") :=
  fetch_docs_allow_all envSample ["*"] "https://anything.example/x"
    (by decide) (by decide) (by decide)

/-- Claim C3: a non-local url failing the string-prefix allowlist when
the set is not allow-all yields the error string listing the allowed
origins, with no HTTP request performed; with the set holding only
https://docs.example.com/ the matching page locator passes to the HTTP
step and the evil page locator is rejected with the string naming the
allowed origin. -/
theorem fetch_docs_allowlist_reject :
    (∀ (env : Env) (domains : List String) (url : String),
      py_startswith url "file://" = false →
      env.fsExists url = false →
      domains.contains "*" = false →
      domains.any (fun domain => py_startswith url domain) = false →
      fetch_docs env domains url
          = .ok ("Error: URL not allowed. Must start with one of the following domains: "
              ++ String.intercalate ", " domains)
        ∧ ∀ (g : String → Except PyExc HttpResponse),
            fetch_docs { env with httpGet := g } domains url = fetch_docs env domains url)
    ∧ fetch_docs envSample ["https://docs.example.com/"] "https://docs.example.com/page"
        = handle_httpx (fetch_try_http envSample "https://docs.example.com/page")
    ∧ fetch_docs envSample ["https://docs.example.com/"] "https://evil.example.com/page"
        = .ok ("Error: URL not allowed. Must start with one of the following domains: "
            ++ "https://docs.example.com/") := by
  refine ⟨?_, by decide, by decide⟩
  intro env domains url h1 h2 h3 h4
  have hcond : (!domains.contains "*"
      && !(domains.any fun domain => py_startswith url domain)) = true := by
    rw [h3, h4]
    rfl
  constructor
  · simp only [fetch_docs, h1, h2, hcond, Bool.false_eq_true, if_false, if_true]
  · intro g
    simp only [fetch_docs, h1, h2, hcond, Bool.false_eq_true, if_false, if_true]

/-- Witness for claim C3 at a concrete input: a url outside the
allowlist is rejected with the listing string. -/
theorem fetch_docs_allowlist_reject_witness :
    fetch_docs envSample ["https://a.org/"] "https://b.org/page"
      = .ok ("Error: URL not allowed. Must start with one of the following domains: "
          ++ String.intercalate ", " ["https://a.org/"]) :=
  (fetch_docs_allowlist_reject.1 envSample ["https://a.org/"] "https://b.org/page"
    (by decide) (by decide) (by decide) (by decide)).1

/-- Claim C7: the listing is, per source and in configured order,
exactly one display-name line followed by exactly one Path: locator
line (for a file:// prefixed or existing locator) or URL: locator line
(otherwise), the display name being the configured non-empty name when
given, else the file base name for local locators, else the origin for
remote locators; the operation always succeeds and yields empty output
for zero sources. -/
theorem list_doc_sources_shape :
    (∀ (env : Env) (ds : List DocSource), list_doc_sources env ds = concat_blocks env ds)
    ∧ ∀ (env : Env), list_doc_sources env [] = "" := by
  constructor
  · intro env ds
    rw [list_doc_sources, list_doc_sources_foldl_aux, String.empty_append]
  · intro env
    rfl

/-- Claim C8: for a local locator, fetch_docs is deterministic and
stateless — two invocations under the same file-read outcome and the
same converter return identical results, whatever the allowlist, the
HTTP client, or the rest of the filesystem do. -/
theorem fetch_docs_local_deterministic (env1 env2 : Env) (d1 d2 : List String) (url : String)
    (hmd : env1.markdownify = env2.markdownify)
    (hloc : (py_startswith url "file://" = true
        ∧ env1.fsRead (py_drop url 7) = env2.fsRead (py_drop url 7))
      ∨ (py_startswith url "file://" = false ∧ env1.fsExists url = true
        ∧ env2.fsExists url = true ∧ env1.fsRead url = env2.fsRead url)) :
    fetch_docs env1 d1 url = fetch_docs env2 d2 url := by
  rcases hloc with ⟨h, hr⟩ | ⟨h, h1, h2, hr⟩
  · simp [fetch_docs, h, local_read, local_read_try, hr, hmd]
  · simp [fetch_docs, h, h1, h2, local_read, local_read_try, hr, hmd]

/-- Witness for claim C8 at a concrete input: two reads of the same
existing file under different allowlists agree. -/
theorem fetch_docs_local_deterministic_witness :
    fetch_docs envLocal ["https://a.org/"] "/docs/llms.txt"
      = fetch_docs envLocal ["*"] "/docs/llms.txt" :=
  fetch_docs_local_deterministic envLocal envLocal ["https://a.org/"] ["*"] "/docs/llms.txt"
    rfl (Or.inr ⟨by decide, by decide, by decide, rfl⟩)

/-- Claim C9: every origin extracted from a remote source has the
shape scheme plus colon-slash-slash plus netloc plus slash, hence ends
in a slash, while configured extra domains enter the set verbatim with
no normalization; and since the allowlist check is plain string-prefix
matching, a configured domain without a trailing slash admits every
non-local url that merely extends it as a string — each such url
passes the check and proceeds to the HTTP step. -/
theorem allowed_domains_shape_and_prefix_pitfall :
    (∀ (env : Env) (url : String), (extract_domain env url).data.getLast? = some '/')
    ∧ (∀ (env : Env) (ds : List DocSource) (l : List String),
        l.isEmpty = false → l.contains "*" = false →
        ∀ d ∈ l, d ∈ compute_domains env ds (some l))
    ∧ ∀ (env : Env) (domains : List String) (d url : String),
        d ∈ domains → py_startswith url d = true →
        py_startswith url "file://" = false → env.fsExists url = false →
        fetch_docs env domains url = handle_httpx (fetch_try_http env url) := by
  refine ⟨?_, ?_, ?_⟩
  · intro env url
    show ((env.urlparse url).1 ++ "://" ++ (env.urlparse url).2 ++ "/").data.getLast? = some '/'
    rw [String.data_append]
    have hslash : ("/" : String).data = ['/'] := rfl
    rw [hslash]
    exact List.getLast?_concat _
  · intro env ds l hne hstar d hd
    have h1 : truthyList (some l) = true := by simp [truthyList, hne]
    have hstar2 : ("*" : String) ∉ l := by
      intro hmem
      have h2 : l.contains "*" = true := by simpa using hmem
      rw [hstar] at h2
      exact Bool.false_ne_true h2
    simp only [compute_domains, h1, if_true, Option.getD]
    rw [if_neg]
    · exact Finset.mem_union_right _ (List.mem_toFinset.mpr hd)
    · simp [hstar2]
  · intro env domains d url hd hpre hfile hex
    have hany : (domains.any fun domain => py_startswith url domain) = true := by
      simp only [List.any_eq_true]
      exact ⟨d, hd, hpre⟩
    have hcond : (!domains.contains "*"
        && !(domains.any fun domain => py_startswith url domain)) = false := by
      rw [hany]
      simp
    simp only [fetch_docs, hfile, hex, hcond, Bool.false_eq_true, if_false]

/-- Witness for claim C9 at a concrete input: the extra domain
https://a.com without a trailing slash is a verbatim member of the
derived set, and the url https://a.com.evil.example/x, whose host
string merely extends it, passes the allowlist and reaches the HTTP
step. -/
theorem allowed_domains_shape_and_prefix_pitfall_witness :
    "https://a.com" ∈ compute_domains envSample [] (some ["https://a.com"])
    ∧ fetch_docs envSample ["https://a.com"] "https://a.com.evil.example/x"
        = handle_httpx (fetch_try_http envSample "https://a.com.evil.example/x") :=
  ⟨allowed_domains_shape_and_prefix_pitfall.2.1 envSample [] ["https://a.com"]
      (by decide) (by decide) "https://a.com" (by decide),
    allowed_domains_shape_and_prefix_pitfall.2.2 envSample ["https://a.com"]
      "https://a.com" "https://a.com.evil.example/x"
      (by decide) (by decide) (by decide) (by decide)⟩

/-- Claim C1 as stated is refuted at a concrete input: on the remote
path the except clause catches only the two httpx exception classes,
so an exception of another class raised while converting the response
body propagates out of fetch_docs; here the converter raises a
RecursionError on a successfully fetched 200 body and the call ends in
that exception instead of a returned string. -/
theorem fetch_docs_conversion_exception_propagates :
    fetch_docs envBoom ["*"] "https://example.com/page"
      = .error (.other "RecursionError: maximum recursion depth exceeded") := by
  decide

/-- Claim C1 (amended): whenever the call takes the file:// path, the
bare-path read, or the allowlist rejection, fetch_docs returns a
string and propagates no exception, unconditionally — whatever the
filesystem read or the converter raise, those branches catch every
exception; on the remote path it returns a string provided every
exception raised by the HTTP GET or by the conversion of the response
body belongs to the caught httpx classes. -/
theorem fetch_docs_total_amended :
    (∀ (env : Env) (domains : List String) (url : String),
      (py_startswith url "file://" = true ∨ env.fsExists url = true
        ∨ (!domains.contains "*"
            && !(domains.any fun domain => py_startswith url domain)) = true) →
      (fetch_docs env domains url).isOk = true)
    ∧ ∀ (env : Env) (domains : List String) (url : String),
        (∀ e, env.httpGet url = .error e → e.caughtByHttpx = true) →
        (∀ s e, env.markdownify s = .error e → e.caughtByHttpx = true) →
        (fetch_docs env domains url).isOk = true := by
  constructor
  · intro env domains url hbranch
    unfold fetch_docs
    split
    · rfl
    · split
      · rfl
      · split
        · rfl
        · rename_i h1 h2 h3
          rcases hbranch with hb | hb | hb
          · exact absurd hb h1
          · exact absurd hb h2
          · exact absurd hb h3
  · intro env domains url hget hmd
    unfold fetch_docs
    split
    · rfl
    · split
      · rfl
      · split
        · rfl
        · cases hg : env.httpGet url with
          | error e =>
              have hc := hget e hg
              simp [handle_httpx, fetch_try_http, hg, hc, Except.isOk, Except.toBool]
          | ok resp =>
              by_cases hs : 200 ≤ resp.status ∧ resp.status < 300
              · cases hm : env.markdownify resp.text with
                | ok md =>
                    simp [handle_httpx, fetch_try_http, raise_for_status, hg, hs, hm,
                      Except.isOk, Except.toBool]
                | error e =>
                    have hc := hmd _ e hm
                    simp [handle_httpx, fetch_try_http, raise_for_status, hg, hs, hm, hc,
                      Except.isOk, Except.toBool]
              · simp [handle_httpx, fetch_try_http, raise_for_status, hg, hs,
                  PyExc.caughtByHttpx, Except.isOk, Except.toBool]

/-- Witness for the amended claim C1 at concrete inputs: a file://
locator in an environment whose converter raises a RecursionError
still yields a string (the catch-all local branch), and a remote
locator in an environment whose collaborators never raise outside the
caught classes yields a string. -/
theorem fetch_docs_total_amended_witness :
    (fetch_docs envBoom ["*"] "file:///a/b").isOk = true
    ∧ (fetch_docs envSample ["*"] "https://a.org/x").isOk = true :=
  ⟨fetch_docs_total_amended.1 envBoom ["*"] "file:///a/b" (Or.inl (by decide)),
    fetch_docs_total_amended.2 envSample ["*"] "https://a.org/x"
      (fun e h => by simp [envSample] at h)
      (fun s e h => by simp [envSample] at h)⟩
